import Mathlib

/-!
Verification development for `nemo/collections/tts/models/hifigan.py`
(`HifiGanModel`, a HiFi-GAN vocoder training module built on PyTorch
Lightning).

The file is orchestration glue: it composes opaque numerical modules
(the generator network, the multi-period and multi-scale discriminators,
mel-spectrogram extractors, STFT kernels) with framework primitives
(optimizers, schedulers, loggers).  We embed it shallowly by treating
every opaque numerical operation as a constructor of a symbolic tensor
expression type `E` (and a symbolic scalar-loss type `SE`), so that the
data flow, the control flow, the emitted optimizer/logging events, and
the mutable model state (`stft_bias`) are modelled exactly while the
numerics stay uninterpreted.  Each Python method becomes a Lean function
on these symbolic values; stateful methods return the updated model
record explicitly.
-/

namespace HifiGan

/-- Configuration of a mel-spectrogram extractor, as instantiated by Hydra
from `cfg.preprocessor`.  `sample_rate`, `highfreq` and `use_grads` are the
fields the module reads or overrides; every remaining Hydra parameter is
kept opaque in `rest`. -/
structure PreprocessorCfg where
  sample_rate : Nat
  highfreq : Option Int
  use_grads : Bool
  rest : String
  deriving DecidableEq, Repr

/-- Which discriminator ensemble: multi-period (`self.mpd`) or multi-scale
(`self.msd`). -/
inductive DiscKind where
  | mpd
  | msd
  deriving DecidableEq, Repr

/-- The four outputs of a discriminator forward pass
`(score_real, score_gen, fmap_real, fmap_gen)`. -/
inductive DiscOut where
  | scoreReal
  | scoreGen
  | fmapReal
  | fmapGen
  deriving DecidableEq, Repr

/-- Symbolic tensor expressions.  Each constructor is one opaque tensor
operation appearing in `hifigan.py`; the numerical semantics stays
uninterpreted, only the composition structure is modelled. -/
inductive E where
  /-- a tensor coming from the batch, identified by name -/
  | input (name : String)
  /-- `torch.zeros_like(t)` -/
  | zerosLike (t : E)
  /-- `self.generator(x=spec)` -/
  | gen (spec : E)
  /-- `t.squeeze(dim)` -/
  | squeeze (dim : Nat) (t : E)
  /-- `t.unsqueeze(dim)` -/
  | unsqueeze (dim : Nat) (t : E)
  /-- `t.detach()` -/
  | detach (t : E)
  /-- first output (the mel) of a mel-spectrogram extractor call -/
  | melspec (ext : PreprocessorCfg) (audio len : E)
  /-- second output (the valid length) of a mel-spectrogram extractor call -/
  | melspecLen (ext : PreprocessorCfg) (audio len : E)
  /-- STFT magnitudes `sqrt(real**2 + imag**2)` of `stft_patch(x, ...)` -/
  | stftMags (nfft hop win : Nat) (x : E)
  /-- STFT phase `atan2(imag, real)` of `stft_patch(x, ...)` -/
  | stftPhase (nfft hop win : Nat) (x : E)
  /-- `torch.istft` of the complex tensor rebuilt from magnitudes and phase -/
  | istftE (nfft hop win : Nat) (mags phase : E)
  /-- `t[:, :, 0][:, :, None]`: keep the first frame, with a trailing axis -/
  | firstFrameCol (t : E)
  /-- elementwise subtraction -/
  | sub (a b : E)
  /-- multiplication by a configuration scalar -/
  | smul (c : ℚ) (t : E)
  /-- `torch.clamp(t, 0.0)` -/
  | clamp0 (t : E)
  /-- one of the four outputs of a discriminator forward pass on `(y, y_hat)` -/
  | disc (k : DiscKind) (o : DiscOut) (y yhat : E)
  deriving DecidableEq, Repr

/-- Symbolic scalar (loss / metric) expressions. -/
inductive SE where
  /-- `F.l1_loss(a, b)` -/
  | l1 (a b : E)
  /-- multiplication of a loss by a constant -/
  | scale (k : ℚ) (s : SE)
  /-- first output of `self.discriminator_loss(real, generated)` -/
  | discLoss (real generated : E)
  /-- `self.feature_loss(fmap_r, fmap_g)` -/
  | featLoss (r g : E)
  /-- first output of `self.generator_loss(disc_outputs)` -/
  | genLoss (outs : E)
  /-- sum of two losses -/
  | add (a b : SE)
  /-- the logged `self.global_step` metric -/
  | globalStep
  /-- the logged `self.optim_g.param_groups[0]['lr']` metric -/
  | lrMetric
  deriving DecidableEq, Repr

/-- The model-level Hydra configuration fields that `hifigan.py` reads. -/
structure ModelCfg where
  preprocessor : PreprocessorCfg
  /-- `cfg.denoise_strength`, used by `_bias_denoise` -/
  denoise_strength : ℚ
  /-- `cfg.max_steps`, used by `configure_optimizers` -/
  max_steps : Nat
  /-- opaque optimizer sub-config `cfg.optim` -/
  optim : String
  /-- opaque generator sub-config `cfg.generator` -/
  generator : String
  deriving DecidableEq, Repr

/-- `instantiate(cfg.preprocessor)`: Hydra instantiation with no overrides;
the extractor is determined by its configuration. -/
def instantiatePreprocessor (c : PreprocessorCfg) : PreprocessorCfg := c

/-- `instantiate(cfg.preprocessor, highfreq=None, use_grads=True)`: Hydra
instantiation with the two keyword overrides used for `trg_melspec_fn`. -/
def instantiateTrgMelspec (c : PreprocessorCfg) : PreprocessorCfg :=
  { c with highfreq := none, use_grads := true }

/-- The state of a `HifiGanModel` instance, restricted to the attributes the
claims are about: the stored configuration, the two extractor
configurations, the sample rate, the lazily computed `stft_bias`, and the
`finetune` flag fixed in `__init__`. -/
structure HifiGanModel where
  cfg : ModelCfg
  audio_to_melspec_precessor : PreprocessorCfg
  trg_melspec_fn : PreprocessorCfg
  sample_rate : Nat
  stft_bias : Option E
  finetune : Bool
  deriving DecidableEq, Repr

/-- `HifiGanModel.__init__`.  `trainDatasetIsMelAudio` embeds
`isinstance(self._train_dl.dataset, MelAudioDataset)` (the dataloader
plumbing that sets `self._train_dl` lives in the framework base class). -/
def HifiGanModel.init (cfg : ModelCfg) (trainDatasetIsMelAudio : Bool) :
    HifiGanModel :=
  { cfg := cfg
    audio_to_melspec_precessor := instantiatePreprocessor cfg.preprocessor
    trg_melspec_fn := instantiateTrgMelspec cfg.preprocessor
    sample_rate := cfg.preprocessor.sample_rate
    stft_bias := none
    finetune := trainDatasetIsMelAudio }

/-- `forward(self, *, spec)`: runs the generator. -/
def HifiGanModel.forward (_m : HifiGanModel) (spec : E) : E := E.gen spec

/-- `convert_spectrogram_to_audio(self, spec)`: `self(spec=spec).squeeze(1)`. -/
def HifiGanModel.convert_spectrogram_to_audio (m : HifiGanModel) (spec : E) : E :=
  E.squeeze 1 (m.forward spec)

/-- Output type of `forward` as declared by `output_types`:
`NeuralType(('B', 'S', 'T'), AudioSignal(...))`. -/
def forward_output_dims : List String := ["B", "S", "T"]

/-- Output type of `convert_spectrogram_to_audio` as declared by its
`@typecheck` override: `NeuralType(('B', 'T'), AudioSignal())`. -/
def convert_output_dims : List String := ["B", "T"]

/-- The inner `stft` helper of `_bias_denoise`: squeezes dim 1, runs
`stft_patch(..., n_fft=1024, hop_length=256, win_length=1024)` and returns
`(mags, phase)`. -/
def stft_fn (x : E) : E × E :=
  (E.stftMags 1024 256 1024 (E.squeeze 1 x),
   E.stftPhase 1024 256 1024 (E.squeeze 1 x))

/-- The inner `istft` helper of `_bias_denoise`: rebuilds the complex
tensor from `(mags, phase)` and runs `torch.istft` with the same
parameters. -/
def istft_fn (mags phase : E) : E := E.istftE 1024 256 1024 mags phase

/-- `_bias_denoise(self, audio, mel)`.  Returns the updated model (the
`self.stft_bias` write in the lazy-initialisation branch) together with the
denoised audio.  The `Option.getD` default is unreachable: after the first
branch `stft_bias` is always `some`. -/
def HifiGanModel.bias_denoise (m : HifiGanModel) (audio mel : E) :
    HifiGanModel × E :=
  let m1 : HifiGanModel :=
    match m.stft_bias with
    | none =>
        let audio_bias := m.forward (E.zerosLike mel)
        let sb := (stft_fn audio_bias).1
        { m with stft_bias := some (E.firstFrameCol sb) }
    | some _ => m
  let p := stft_fn audio
  let audio_mags :=
    E.clamp0 (E.sub p.1
      (E.smul m.cfg.denoise_strength (Option.getD m1.stft_bias (E.input "unreachable"))))
  (m1, E.unsqueeze 1 (istft_fn audio_mags p.2))

/-- The bias expression computed by the lazy-initialisation branch of
`_bias_denoise` for a given `mel`: the first STFT frame (all frequency
bins, with a trailing axis) of the magnitudes of the generator's output on
`torch.zeros_like(mel)`. -/
def biasExpr (mel : E) : E :=
  E.firstFrameCol (stft_fn (E.gen (E.zerosLike mel))).1

/-- The bias actually used by a `_bias_denoise` call entering with state
`m`: the memoized tensor if present, otherwise the freshly computed
`biasExpr mel`. -/
def biasUsed (m : HifiGanModel) (mel : E) : E :=
  Option.getD m.stft_bias (biasExpr mel)

/-- The denoising formula of `_bias_denoise`: inverse STFT (n_fft 1024,
hop 256, window 1024) of the input audio's STFT, with magnitudes reduced by
`strength` times the bias, clamped below at 0, phase unchanged, and the
channel axis restored by `unsqueeze(1)`. -/
def denoised_formula (strength : ℚ) (audio bias : E) : E :=
  E.unsqueeze 1
    (istft_fn
      (E.clamp0 (E.sub (stft_fn audio).1 (E.smul strength bias)))
      (stft_fn audio).2)

/-- The two optimizers of the model. -/
inductive Opt where
  | g
  | d
  deriving DecidableEq, Repr

/-- Observable effects of a step method, in program order: optimizer calls
and logging calls.  Pure tensor computations carry no effect and appear
only inside the loss expressions of `backward` events. -/
inductive Ev where
  /-- `optim.zero_grad()` -/
  | zeroGrad (o : Opt)
  /-- `self.manual_backward(loss, optim)` -/
  | backward (loss : SE) (o : Opt)
  /-- `optim.step()` -/
  | step (o : Opt)
  /-- `self.log_dict(metrics, ...)` -/
  | logDict (metrics : List (String × SE))
  /-- `self.log(key, value, ...)` -/
  | logScalar (key : String) (v : SE)
  /-- `self.logger.experiment.log({"audio": clips, "specs": specs}, ...)` -/
  | wandbLog
  deriving DecidableEq, Repr

/-- The mel fed to the generator in `training_step` / `validation_step`: the
pre-computed batch mel in fine-tuning mode, otherwise the output of
`audio_to_melspec_precessor` on the ground-truth audio. -/
def HifiGanModel.inputMel (m : HifiGanModel) (audio audio_len batch_mel : E) : E :=
  if m.finetune then batch_mel
  else E.melspec m.audio_to_melspec_precessor audio audio_len

/-- `training_step(self, batch, batch_idx, optimizer_idx)`.  The batch is
`(audio, audio_len, batch_mel)` in fine-tuning mode and `(audio, audio_len)`
otherwise (then `batch_mel` is unused).  Returns the trace of optimizer and
logging effects in program order; `training_step` never touches
`stft_bias`, so no updated model is returned. -/
def HifiGanModel.training_step (m : HifiGanModel)
    (audio0 audio_len batch_mel : E) : List Ev :=
  let audio_mel := m.inputMel audio0 audio_len batch_mel
  let audio_trg_mel := E.melspec m.trg_melspec_fn audio0 audio_len
  let audio := E.unsqueeze 1 audio0
  let audio_pred := E.gen audio_mel
  let audio_pred_mel :=
    E.melspec m.trg_melspec_fn (E.squeeze 1 audio_pred) audio_len
  let loss_disc_mpd :=
    SE.discLoss (E.disc .mpd .scoreReal audio (E.detach audio_pred))
                (E.disc .mpd .scoreGen audio (E.detach audio_pred))
  let loss_disc_msd :=
    SE.discLoss (E.disc .msd .scoreReal audio (E.detach audio_pred))
                (E.disc .msd .scoreGen audio (E.detach audio_pred))
  let loss_d := SE.add loss_disc_msd loss_disc_mpd
  let loss_mel := SE.scale 45 (SE.l1 audio_pred_mel audio_trg_mel)
  let loss_fm_mpd :=
    SE.featLoss (E.disc .mpd .fmapReal audio audio_pred)
                (E.disc .mpd .fmapGen audio audio_pred)
  let loss_fm_msd :=
    SE.featLoss (E.disc .msd .fmapReal audio audio_pred)
                (E.disc .msd .fmapGen audio audio_pred)
  let loss_gen_mpd := SE.genLoss (E.disc .mpd .scoreGen audio audio_pred)
  let loss_gen_msd := SE.genLoss (E.disc .msd .scoreGen audio audio_pred)
  let loss_g :=
    SE.add (SE.add (SE.add (SE.add loss_gen_msd loss_gen_mpd) loss_fm_msd)
                   loss_fm_mpd) loss_mel
  [ Ev.zeroGrad .d, Ev.backward loss_d .d, Ev.step .d,
    Ev.zeroGrad .g, Ev.backward loss_g .g, Ev.step .g,
    Ev.logDict
      [ ("g_l1_loss", loss_mel),
        ("g_loss_fm_mpd", loss_fm_mpd),
        ("g_loss_fm_msd", loss_fm_msd),
        ("g_loss_gen_mpd", loss_gen_mpd),
        ("g_loss_gen_msd", loss_gen_msd),
        ("g_loss", loss_g),
        ("d_loss_mpd", loss_disc_mpd),
        ("d_loss_msd", loss_disc_msd),
        ("d_loss", loss_d),
        ("global_step", SE.globalStep),
        ("lr", SE.lrMetric) ] ]

/-- `validation_step(self, batch, batch_idx)`.  `loggerIsWandb` embeds
`isinstance(self.logger, WandbLogger)` and `haveWandb` the module-level
`HAVE_WANDB` import flag.  Returns the updated model (via
`_bias_denoise`) and the trace of logging effects. -/
def HifiGanModel.validation_step (m : HifiGanModel)
    (audio audio_len batch_mel : E) (batch_idx : Nat)
    (loggerIsWandb haveWandb : Bool) : HifiGanModel × List Ev :=
  let audio_mel := m.inputMel audio audio_len batch_mel
  let audio_pred := E.gen audio_mel
  let r := m.bias_denoise audio_pred audio_mel
  let audio_pred_mel :=
    E.melspec m.audio_to_melspec_precessor (E.squeeze 1 audio_pred) audio_len
  let loss_mel := SE.l1 audio_mel audio_pred_mel
  let evs := [Ev.logScalar "val_loss" loss_mel]
  let evs :=
    if batch_idx == 0 && loggerIsWandb && haveWandb then evs ++ [Ev.wandbLog]
    else evs
  (r.1, evs)

/-- The parameter collection an optimizer is built over:
`self.generator.parameters()` or
`itertools.chain(self.msd.parameters(), self.mpd.parameters())`. -/
inductive ParamGroup where
  | generatorParams
  | chainMsdMpd
  deriving DecidableEq, Repr

/-- An optimizer produced by `instantiate(self._cfg.optim, params=...)`:
the opaque optimizer sub-config together with the parameter group. -/
structure Optimizer where
  fromCfg : String
  params : ParamGroup
  deriving DecidableEq, Repr

/-- A learning-rate scheduler instance. -/
structure Scheduler where
  kind : String
  optim : ParamGroup
  max_steps : Nat
  min_lr : ℚ
  warmup_steps : Nat
  deriving DecidableEq, Repr

/-- The scheduler dictionary handed back to Lightning:
`{'scheduler': ..., 'interval': 'step'}`. -/
structure SchedDict where
  scheduler : Scheduler
  interval : String
  deriving DecidableEq, Repr

/-- Modelled from the spec: the `CosineAnnealing` scheduler class
(`nemo.core.optim.lr_scheduler`) is not part of this file; per the spec's
"cosine learning-rate annealing" recipe it anneals from the optimizer's
learning rate down to `min_lr` over `max_steps`, with an optional warmup
phase that is absent (0 steps) when no `warmup_steps` argument is passed. -/
def CosineAnnealing (optim : ParamGroup) (max_steps : Nat) (min_lr : ℚ)
    (warmup_steps : Nat) : Scheduler :=
  { kind := "CosineAnnealing", optim := optim, max_steps := max_steps,
    min_lr := min_lr, warmup_steps := warmup_steps }

/-- `configure_optimizers(self)`.  `np.ceil(0.2 * max_steps)` is embedded
as `Nat.ceil (max_steps / 5 : ℚ)`: for every `max_steps` below 2^53 the
double-precision product `0.2 * max_steps` rounds to a value with the same
ceiling as the exact rational `max_steps / 5` (the relative error of the
float literal `0.2` is 2^-54, below the half-ulp of the product). -/
def HifiGanModel.configure_optimizers (m : HifiGanModel) :
    List Optimizer × List SchedDict :=
  let optim_g : Optimizer := { fromCfg := m.cfg.optim, params := .generatorParams }
  let optim_d : Optimizer := { fromCfg := m.cfg.optim, params := .chainMsdMpd }
  let max_steps := m.cfg.max_steps
  let warmup_steps : Nat :=
    if m.finetune then 0 else Nat.ceil ((max_steps : ℚ) / 5)
  let scheduler_g := CosineAnnealing .generatorParams max_steps (1 / 100000) warmup_steps
  let sch1_dict : SchedDict := { scheduler := scheduler_g, interval := "step" }
  let scheduler_d := CosineAnnealing .chainMsdMpd max_steps (1 / 100000) 0
  let sch2_dict : SchedDict := { scheduler := scheduler_d, interval := "step" }
  ([optim_g, optim_d], [sch1_dict, sch2_dict])

/-- A value held under a config key: either a `DictConfig` (carrying its
payload) or some non-dict value. -/
inductive CfgEntry (α : Type) where
  | dictC (v : α)
  | nonDict
  deriving DecidableEq, Repr

/-- The `dataloader_params` payload: the optional `shuffle` key plus the
remaining keyword arguments, kept opaque. -/
structure DataloaderParams where
  shuffle : Option Bool
  rest : String
  deriving DecidableEq, Repr

/-- A dataloader configuration as consumed by
`__setup_dataloader_from_config`: the optional `dataset` and
`dataloader_params` entries.  Reading a missing `shuffle` attribute on a
(non-struct) `DictConfig` yields `None`, embedded as `Option.getD false`
where the code reads it truthily. -/
structure DataConfig where
  dataset : Option (CfgEntry String)
  dataloader_params : Option (CfgEntry DataloaderParams)
  deriving DecidableEq, Repr

/-- A diagnostic emitted through `logging.warning` / `logging.error`. -/
inductive LogMsg where
  /-- the warning that `shuffle` was absent and is being forced to True -/
  | warnShuffleMissing (name : String)
  /-- the error log for a training-style loader with `shuffle=False` -/
  | errShuffleFalse (name : String)
  /-- the error log for a validation-style loader with `shuffle=True` -/
  | errShuffleTrue (name : String)
  deriving DecidableEq, Repr

/-- The `torch.utils.data.DataLoader` built at the end of
`__setup_dataloader_from_config`: the instantiated dataset and the
(possibly shuffle-patched) keyword parameters. -/
structure DataLoader where
  dataset : String
  params : DataloaderParams
  deriving DecidableEq, Repr

/-- `_HifiGanModel__setup_dataloader_from_config(self, cfg,
shuffle_should_be, name)`.  `Except.error` embeds a raised `ValueError`
(with its message); a normal return carries the dataloader and the
diagnostics logged on the way. -/
def setup_dataloader_from_config (cfg : DataConfig)
    (shuffle_should_be : Bool) (name : String) :
    Except String (DataLoader × List LogMsg) :=
  match cfg.dataset with
  | none => .error ("No dataset for " ++ name)
  | some .nonDict => .error ("No dataset for " ++ name)
  | some (.dictC ds) =>
    match cfg.dataloader_params with
    | none => .error ("No dataloder_params for " ++ name)
    | some .nonDict => .error ("No dataloder_params for " ++ name)
    | some (.dictC p) =>
      if shuffle_should_be then
        match p.shuffle with
        | none =>
            .ok ({ dataset := ds, params := { p with shuffle := some true } },
                 [.warnShuffleMissing name])
        | some false => .ok ({ dataset := ds, params := p }, [.errShuffleFalse name])
        | some true => .ok ({ dataset := ds, params := p }, [])
      else
        if Option.getD p.shuffle false then
          .ok ({ dataset := ds, params := p }, [.errShuffleTrue name])
        else
          .ok ({ dataset := ds, params := p }, [])

/-- `setup_training_data(self, cfg)`: the defaults
`shuffle_should_be=True, name="train"` apply. -/
def setup_training_data (cfg : DataConfig) :
    Except String (DataLoader × List LogMsg) :=
  setup_dataloader_from_config cfg true "train"

/-- `setup_validation_data(self, cfg)`: called with
`shuffle_should_be=False, name="validation"`. -/
def setup_validation_data (cfg : DataConfig) :
    Except String (DataLoader × List LogMsg) :=
  setup_dataloader_from_config cfg false "validation"

/-- One public operation on a model instance, for stating lifetime
invariants of `stft_bias`. -/
inductive Op where
  | trainStep (audio audio_len batch_mel : E)
  | valStep (audio audio_len batch_mel : E) (batch_idx : Nat) (w hw : Bool)
  | forwardOp (spec : E)
  | convertOp (spec : E)
  | denoiseOp (audio mel : E)
  | configureOpt

/-- The model state after one operation.  Only `validation_step` and
`_bias_denoise` ever write to the model attributes embedded here
(`training_step`, `forward`, `convert_spectrogram_to_audio` and
`configure_optimizers` read them but assign none of them). -/
def stepOp (m : HifiGanModel) : Op → HifiGanModel
  | .trainStep _ _ _ => m
  | .valStep a l bm i w hw => (m.validation_step a l bm i w hw).1
  | .forwardOp _ => m
  | .convertOp _ => m
  | .denoiseOp a mel => (m.bias_denoise a mel).1
  | .configureOpt => m

/-- The optimizer an event acts on, if any (logging events act on none). -/
def evOpt : Ev → Option Opt
  | .zeroGrad o => some o
  | .backward _ o => some o
  | .step o => some o
  | _ => none

/-- The loss passed to the first `manual_backward` on optimizer `o` in a
trace. -/
def backwardLoss (o : Opt) : List Ev → Option SE
  | [] => none
  | .backward s o2 :: tl => if o2 = o then some s else backwardLoss o tl
  | _ :: tl => backwardLoss o tl

/-- Flatten a scalar expression into its list of top-level summands. -/
def SE.summands : SE → List SE
  | .add a b => a.summands ++ b.summands
  | s => [s]

/-- The value logged under `"val_loss"` in a trace, if any. -/
def valLossOf : List Ev → Option SE
  | [] => none
  | .logScalar k v :: tl => if k = "val_loss" then some v else valLossOf tl
  | _ :: tl => valLossOf tl

/-- Whether a trace emits qualitative samples to the wandb experiment
tracker. -/
def hasWandbLog (tr : List Ev) : Bool :=
  tr.any fun e => e = Ev.wandbLog

/-- The first argument of an `l1` scalar expression, if the expression has
that shape. -/
def l1FirstArg : Option SE → Option E
  | some (SE.l1 x _) => some x
  | _ => none

/-- Whether a dataloader setup call raised a `ValueError`. -/
def raisesValueError (r : Except String (DataLoader × List LogMsg)) : Bool :=
  match r with
  | .error _ => true
  | .ok _ => false

/-- Whether the config has a `dataset` entry that is a `DictConfig`. -/
def hasDictDataset (cfg : DataConfig) : Bool :=
  match cfg.dataset with
  | some (.dictC _) => true
  | _ => false

/-- Whether the config has a `dataloader_params` entry that is a
`DictConfig`. -/
def hasDictDataloaderParams (cfg : DataConfig) : Bool :=
  match cfg.dataloader_params with
  | some (.dictC _) => true
  | _ => false

/-- C5: The model constructs two mel-spectrogram extractors from the same
preprocessor configuration: the input-feature extractor
(`audio_to_melspec_precessor`) is instantiated with the configuration
unchanged, while the target-loss extractor (`trg_melspec_fn`) is
instantiated with `highfreq` overridden to `None` and `use_grads`
overridden to `True`, every other field kept as configured. -/
theorem two_extractor_configs (cfg : ModelCfg) (ft : Bool) :
    (HifiGanModel.init cfg ft).audio_to_melspec_precessor = cfg.preprocessor ∧
    (HifiGanModel.init cfg ft).trg_melspec_fn.highfreq = none ∧
    (HifiGanModel.init cfg ft).trg_melspec_fn.use_grads = true ∧
    (HifiGanModel.init cfg ft).trg_melspec_fn.sample_rate
      = cfg.preprocessor.sample_rate ∧
    (HifiGanModel.init cfg ft).trg_melspec_fn.rest = cfg.preprocessor.rest := by
  refine ⟨rfl, rfl, rfl, rfl, rfl⟩

/-- C10: `convert_spectrogram_to_audio spec` is exactly `forward spec` with
dimension 1 (the channel axis) squeezed out, and its declared output shape
`(B, T)` is the declared forward output shape `(B, S, T)` with the axis at
index 1 removed. -/
theorem convert_is_squeezed_forward (m : HifiGanModel) (spec : E) :
    m.convert_spectrogram_to_audio spec = E.squeeze 1 (m.forward spec) ∧
    forward_output_dims = ["B", "S", "T"] ∧
    convert_output_dims = forward_output_dims.eraseIdx 1 := by
  refine ⟨rfl, rfl, rfl⟩

/-- A concrete model configuration for instantiating theorems. -/
def cfgC : ModelCfg :=
  { preprocessor :=
      { sample_rate := 22050, highfreq := some 8000, use_grads := false,
        rest := "n_fft=1024" },
    denoise_strength := 1 / 40, max_steps := 25000, optim := "adamw",
    generator := "hifigan_generator" }

/-- A concrete freshly constructed model (ground-truth-mel training mode). -/
def mC : HifiGanModel := HifiGanModel.init cfgC false

/-- A concrete batch audio tensor. -/
def aC : E := E.input "audio"

/-- A concrete batch audio-length tensor. -/
def lC : E := E.input "audio_len"

/-- A concrete batch mel tensor. -/
def melC : E := E.input "audio_mel"

theorem bias_denoise_fst (m : HifiGanModel) (audio mel : E) :
    (m.bias_denoise audio mel).1 = { m with stft_bias := some (biasUsed m mel) } := by
  rcases m with ⟨c, a2m, trg, sr, sb, ft⟩
  cases sb <;>
    simp [HifiGanModel.bias_denoise, biasUsed, biasExpr, HifiGanModel.forward]

theorem bias_preserved (m : HifiGanModel) (audio mel b : E)
    (h : m.stft_bias = some b) :
    ((m.bias_denoise audio mel).1).stft_bias = some b := by
  rw [bias_denoise_fst]
  simp [biasUsed, h]

theorem bias_denoise_snd (m : HifiGanModel) (audio mel : E) :
    (m.bias_denoise audio mel).2
      = denoised_formula m.cfg.denoise_strength audio (biasUsed m mel) := by
  rcases m with ⟨c, a2m, trg, sr, sb, ft⟩
  cases sb <;>
    simp [HifiGanModel.bias_denoise, biasUsed, biasExpr, denoised_formula,
      HifiGanModel.forward]

/-- C1: `stft_bias` is `None` right after construction; a `_bias_denoise`
call entering with `stft_bias = None` stores the bias computed from a
generator forward pass on an all-zeros mel (`biasExpr`); a call entering
with a stored bias leaves it unchanged; and every operation of the model
preserves a stored bias — it is never recomputed or reset to `None`. -/
theorem stft_bias_memoized (cfg : ModelCfg) (ft : Bool) (m : HifiGanModel)
    (audio mel b : E) (op : Op) :
    (HifiGanModel.init cfg ft).stft_bias = none ∧
    (m.stft_bias = none →
      ((m.bias_denoise audio mel).1).stft_bias = some (biasExpr mel)) ∧
    (m.stft_bias = some b →
      ((m.bias_denoise audio mel).1).stft_bias = some b) ∧
    (m.stft_bias = some b → (stepOp m op).stft_bias = some b) := by
  refine ⟨rfl, ?_, ?_, ?_⟩
  · intro h
    rw [bias_denoise_fst]
    simp [biasUsed, h]
  · intro h
    exact bias_preserved m audio mel b h
  · intro h
    cases op with
    | trainStep a l bm => exact h
    | valStep a l bm i w hw =>
        simp only [stepOp, HifiGanModel.validation_step]
        exact bias_preserved m _ _ b h
    | forwardOp s => exact h
    | convertOp s => exact h
    | denoiseOp a mel2 => exact bias_preserved m a mel2 b h
    | configureOpt => exact h

theorem stft_bias_memoized_witness :
    ((mC.bias_denoise aC melC).1).stft_bias = some (biasExpr melC) ∧
    ((((mC.bias_denoise aC melC).1).bias_denoise aC melC).1).stft_bias
      = some (biasExpr melC) ∧
    (stepOp (mC.bias_denoise aC melC).1 (Op.trainStep aC lC melC)).stft_bias
      = some (biasExpr melC) :=
  ⟨(stft_bias_memoized cfgC false mC aC melC (biasExpr melC) Op.configureOpt).2.1
      (by decide),
   (stft_bias_memoized cfgC false ((mC.bias_denoise aC melC).1) aC melC
      (biasExpr melC) Op.configureOpt).2.2.1 (by decide),
   (stft_bias_memoized cfgC false ((mC.bias_denoise aC melC).1) aC melC
      (biasExpr melC) (Op.trainStep aC lC melC)).2.2.2 (by decide)⟩

/-- C2: `_bias_denoise` returns (with the channel axis restored by
`unsqueeze(1)`) the inverse STFT — n_fft 1024, hop 256, window 1024 — of
the input audio's STFT whose magnitudes are reduced by `denoise_strength`
times the bias and clamped below at 0, the phase unchanged; and the bias is
the first-frame STFT magnitude of the generator's output on an all-zeros
mel-spectrogram (the current call's mel when `stft_bias` is still `None`,
the memoizing call's mel once stored). -/
theorem bias_denoise_is_spectral_subtraction (m : HifiGanModel) (audio mel : E) :
    (m.bias_denoise audio mel).2
      = denoised_formula m.cfg.denoise_strength audio (biasUsed m mel) ∧
    (m.stft_bias = none → biasUsed m mel = biasExpr mel) ∧
    (∀ m0 : E, m.stft_bias = some (biasExpr m0) → biasUsed m mel = biasExpr m0) := by
  refine ⟨bias_denoise_snd m audio mel, ?_, ?_⟩
  · intro h; simp [biasUsed, h]
  · intro m0 h; simp [biasUsed, h]

theorem bias_denoise_is_spectral_subtraction_witness :
    (mC.bias_denoise aC melC).2
      = denoised_formula mC.cfg.denoise_strength aC (biasUsed mC melC) ∧
    biasUsed mC melC = biasExpr melC :=
  ⟨(bias_denoise_is_spectral_subtraction mC aC melC).1,
   (bias_denoise_is_spectral_subtraction mC aC melC).2.1 (by decide)⟩

/-- The generator output `audio_pred` computed in `training_step` /
`validation_step`: the generator run on the input mel. -/
def trainAudioPred (m : HifiGanModel) (audio audio_len batch_mel : E) : E :=
  E.gen (m.inputMel audio audio_len batch_mel)

/-- C3: in every `training_step` call the optimizer events are exactly
`zero_grad`, `backward`, `step` on the discriminator optimizer — the
backward taken on the sum of the multi-scale and multi-period discriminator
losses, both scored against the detached generator output — followed by
`zero_grad`, `backward`, `step` on the generator optimizer: the
discriminator update completes strictly before the generator update
begins. -/
theorem disc_update_precedes_gen_update (m : HifiGanModel)
    (audio audio_len batch_mel : E) :
    ∃ lossG : SE,
      (m.training_step audio audio_len batch_mel).filter
          (fun e => (evOpt e).isSome)
        = [Ev.zeroGrad Opt.d,
           Ev.backward
             (SE.add
               (SE.discLoss
                 (E.disc .msd .scoreReal (E.unsqueeze 1 audio)
                   (E.detach (trainAudioPred m audio audio_len batch_mel)))
                 (E.disc .msd .scoreGen (E.unsqueeze 1 audio)
                   (E.detach (trainAudioPred m audio audio_len batch_mel))))
               (SE.discLoss
                 (E.disc .mpd .scoreReal (E.unsqueeze 1 audio)
                   (E.detach (trainAudioPred m audio audio_len batch_mel)))
                 (E.disc .mpd .scoreGen (E.unsqueeze 1 audio)
                   (E.detach (trainAudioPred m audio audio_len batch_mel)))))
             Opt.d,
           Ev.step Opt.d,
           Ev.zeroGrad Opt.g,
           Ev.backward lossG Opt.g,
           Ev.step Opt.g] :=
  ⟨_, rfl⟩

/-- C4: in every `training_step` of a constructed model, the loss the
generator optimizer backpropagates is exactly the sum of five terms, in
order: the multi-scale adversarial loss, the multi-period adversarial loss,
the multi-scale feature-matching loss, the multi-period feature-matching
loss, and 45 times the L1 loss between the predicted and target
mel-spectrograms, both produced by `trg_melspec_fn` — the gradient-carrying
extractor. -/
theorem generator_loss_five_terms (cfg : ModelCfg) (ft : Bool)
    (audio audio_len batch_mel : E) :
    (Option.map SE.summands
        (backwardLoss Opt.g
          ((HifiGanModel.init cfg ft).training_step audio audio_len batch_mel)))
      = some
        [SE.genLoss (E.disc .msd .scoreGen (E.unsqueeze 1 audio)
            (trainAudioPred (HifiGanModel.init cfg ft) audio audio_len batch_mel)),
         SE.genLoss (E.disc .mpd .scoreGen (E.unsqueeze 1 audio)
            (trainAudioPred (HifiGanModel.init cfg ft) audio audio_len batch_mel)),
         SE.featLoss
           (E.disc .msd .fmapReal (E.unsqueeze 1 audio)
             (trainAudioPred (HifiGanModel.init cfg ft) audio audio_len batch_mel))
           (E.disc .msd .fmapGen (E.unsqueeze 1 audio)
             (trainAudioPred (HifiGanModel.init cfg ft) audio audio_len batch_mel)),
         SE.featLoss
           (E.disc .mpd .fmapReal (E.unsqueeze 1 audio)
             (trainAudioPred (HifiGanModel.init cfg ft) audio audio_len batch_mel))
           (E.disc .mpd .fmapGen (E.unsqueeze 1 audio)
             (trainAudioPred (HifiGanModel.init cfg ft) audio audio_len batch_mel)),
         SE.scale 45
           (SE.l1
             (E.melspec (HifiGanModel.init cfg ft).trg_melspec_fn
               (E.squeeze 1
                 (trainAudioPred (HifiGanModel.init cfg ft) audio audio_len batch_mel))
               audio_len)
             (E.melspec (HifiGanModel.init cfg ft).trg_melspec_fn audio audio_len))]
      ∧ (HifiGanModel.init cfg ft).trg_melspec_fn.use_grads = true :=
  ⟨rfl, rfl⟩

/-- A concrete model in fine-tuning mode (pre-computed mels). -/
def mCft : HifiGanModel := HifiGanModel.init cfgC true

/-- C6 counterexample: in fine-tuning mode the first argument of the logged
`val_loss` L1 expression is the batch's pre-computed mel tensor itself, not
the output of the gradient-free input extractor on the audio — so the
claim's "both taken through the gradient-free input extractor" fails on the
fine-tuning branch of `validation_step`. -/
theorem val_loss_first_arg_cex :
    l1FirstArg (valLossOf ((mCft.validation_step aC lC melC 0 true true).2))
      = some (E.input "audio_mel") ∧
    (E.input "audio_mel")
      ≠ E.melspec mCft.audio_to_melspec_precessor aC lC := by
  exact ⟨rfl, by decide⟩

/-- C6 (amended): `validation_step` logs under `"val_loss"` the unscaled L1
loss between the input mel-spectrogram — the batch's pre-computed mel in
fine-tuning mode, otherwise the gradient-free input extractor's output on
the audio — and the mel of the generator's predicted audio taken through
the gradient-free input extractor; and the qualitative wandb samples are
emitted exactly when `batch_idx = 0`, the logger is a `WandbLogger`, and
wandb is importable. -/
theorem val_loss_and_wandb_gating (m : HifiGanModel)
    (audio audio_len batch_mel : E) (batch_idx : Nat) (w hw : Bool) :
    valLossOf ((m.validation_step audio audio_len batch_mel batch_idx w hw).2)
      = some (SE.l1 (m.inputMel audio audio_len batch_mel)
          (E.melspec m.audio_to_melspec_precessor
            (E.squeeze 1 (trainAudioPred m audio audio_len batch_mel))
            audio_len)) ∧
    (hasWandbLog ((m.validation_step audio audio_len batch_mel batch_idx w hw).2)
        = true ↔ (batch_idx = 0 ∧ w = true ∧ hw = true)) := by
  constructor
  · cases hb : (batch_idx == 0 && w && hw) <;>
      simp [HifiGanModel.validation_step, valLossOf, trainAudioPred, hb]
  · simp only [HifiGanModel.validation_step, hasWandbLog]
    by_cases h1 : batch_idx = 0 <;> by_cases h2 : w = true <;>
      by_cases h3 : hw = true <;>
      simp [h1, h2, h3]

/-- C7: `configure_optimizers` always returns exactly two optimizers — the
first over the generator's parameters, the second over the chained
multi-scale and multi-period discriminator parameters, both built from
`cfg.optim` — each paired with a per-step `CosineAnnealing` scheduler with
`min_lr = 1e-5` and `max_steps` taken from the configuration. -/
theorem configure_optimizers_two_cosine (m : HifiGanModel) :
    (m.configure_optimizers).1
      = [{ fromCfg := m.cfg.optim, params := .generatorParams },
         { fromCfg := m.cfg.optim, params := .chainMsdMpd }] ∧
    ((m.configure_optimizers).2).map
        (fun s => (s.interval, s.scheduler.kind, s.scheduler.optim,
                   s.scheduler.max_steps, s.scheduler.min_lr))
      = [("step", "CosineAnnealing", ParamGroup.generatorParams,
          m.cfg.max_steps, 1 / 100000),
         ("step", "CosineAnnealing", ParamGroup.chainMsdMpd,
          m.cfg.max_steps, 1 / 100000)] :=
  ⟨rfl, rfl⟩

/-- C9: the generator scheduler's warmup is 0 steps in fine-tuning mode
(train dataset is a `MelAudioDataset`, recorded in `finetune` at
construction) and `ceil(0.2 * max_steps)` — embedded as
`Nat.ceil (max_steps / 5)` — otherwise, while the discriminator scheduler
always has 0 warmup steps. -/
theorem scheduler_warmup_by_mode (cfg : ModelCfg) (ft : Bool) :
    ((HifiGanModel.init cfg ft).configure_optimizers).2.map
        (fun s => s.scheduler.warmup_steps)
      = [if ft then 0 else Nat.ceil ((cfg.max_steps : ℚ) / 5), 0] ∧
    (HifiGanModel.init cfg ft).finetune = ft :=
  ⟨rfl, rfl⟩

theorem setup_dataloader_error_iff (cfg : DataConfig) (ssb : Bool)
    (name : String) :
    raisesValueError (setup_dataloader_from_config cfg ssb name) = true ↔
      (hasDictDataset cfg = false ∨ hasDictDataloaderParams cfg = false) := by
  rcases cfg with ⟨dso, dlo⟩
  rcases dso with _ | ds
  · simp [setup_dataloader_from_config, raisesValueError, hasDictDataset,
      hasDictDataloaderParams]
  · rcases ds with ds | _
    · rcases dlo with _ | dp
      · simp [setup_dataloader_from_config, raisesValueError, hasDictDataset,
          hasDictDataloaderParams]
      · rcases dp with p | _
        · cases ssb <;> rcases hs : p.shuffle with _ | b <;>
            simp [setup_dataloader_from_config, raisesValueError,
              hasDictDataset, hasDictDataloaderParams, hs] <;>
            cases b <;> simp
        · simp [setup_dataloader_from_config, raisesValueError,
            hasDictDataset, hasDictDataloaderParams]
    · simp [setup_dataloader_from_config, raisesValueError, hasDictDataset,
        hasDictDataloaderParams]

/-- C8: setting up training or validation data raises `ValueError` exactly
when the configuration lacks a `dataset` entry that is a `DictConfig` or a
`dataloader_params` entry that is a `DictConfig`; when both are present, a
missing `shuffle` on the training loader is forced to `True` with only a
warning, `shuffle=False` on the training loader only logs an error, and the
validation loader at most logs an error when `shuffle` is truthy — none of
these raise. -/
theorem dataloader_valueerror_iff (cfg : DataConfig) (ds : String)
    (p : DataloaderParams) :
    (raisesValueError (setup_training_data cfg) = true ↔
      (hasDictDataset cfg = false ∨ hasDictDataloaderParams cfg = false)) ∧
    (raisesValueError (setup_validation_data cfg) = true ↔
      (hasDictDataset cfg = false ∨ hasDictDataloaderParams cfg = false)) ∧
    (cfg.dataset = some (.dictC ds) →
      cfg.dataloader_params = some (.dictC p) →
      p.shuffle = none →
      setup_training_data cfg
        = .ok ({ dataset := ds, params := { p with shuffle := some true } },
               [.warnShuffleMissing "train"])) ∧
    (cfg.dataset = some (.dictC ds) →
      cfg.dataloader_params = some (.dictC p) →
      p.shuffle = some false →
      setup_training_data cfg
        = .ok ({ dataset := ds, params := p }, [.errShuffleFalse "train"])) ∧
    (cfg.dataset = some (.dictC ds) →
      cfg.dataloader_params = some (.dictC p) →
      setup_validation_data cfg
        = .ok ({ dataset := ds, params := p },
               if Option.getD p.shuffle false then [.errShuffleTrue "validation"]
               else [])) := by
  refine ⟨setup_dataloader_error_iff cfg true "train",
          setup_dataloader_error_iff cfg false "validation", ?_, ?_, ?_⟩
  · intro h1 h2 h3
    rcases cfg with ⟨dso, dlo⟩
    simp only at h1 h2
    subst h1 h2
    simp [setup_training_data, setup_dataloader_from_config, h3]
  · intro h1 h2 h3
    rcases cfg with ⟨dso, dlo⟩
    simp only at h1 h2
    subst h1 h2
    simp [setup_training_data, setup_dataloader_from_config, h3]
  · intro h1 h2
    rcases cfg with ⟨dso, dlo⟩
    simp only at h1 h2
    subst h1 h2
    by_cases hq : Option.getD p.shuffle false = true <;>
      simp [setup_validation_data, setup_dataloader_from_config, hq]

/-- A concrete dataloader-params payload with no `shuffle` key. -/
def dlpC : DataloaderParams := { shuffle := none, rest := "batch_size=16" }

/-- A concrete well-formed dataloader configuration. -/
def dataCfgC : DataConfig :=
  { dataset := some (.dictC "MelAudioDataset"),
    dataloader_params := some (.dictC dlpC) }

theorem dataloader_valueerror_iff_witness :
    (raisesValueError (setup_training_data dataCfgC) = true ↔
      (hasDictDataset dataCfgC = false ∨ hasDictDataloaderParams dataCfgC = false)) ∧
    setup_training_data dataCfgC
      = .ok ({ dataset := "MelAudioDataset",
               params := { dlpC with shuffle := some true } },
             [.warnShuffleMissing "train"]) ∧
    setup_validation_data dataCfgC
      = .ok ({ dataset := "MelAudioDataset", params := dlpC },
             if Option.getD dlpC.shuffle false then [.errShuffleTrue "validation"]
             else []) :=
  ⟨(dataloader_valueerror_iff dataCfgC "MelAudioDataset" dlpC).1,
   (dataloader_valueerror_iff dataCfgC "MelAudioDataset" dlpC).2.2.1 rfl rfl rfl,
   (dataloader_valueerror_iff dataCfgC "MelAudioDataset" dlpC).2.2.2.2 rfl rfl⟩

end HifiGan
